import Mathlib

/-!
Shallow embedding of the Moultrie Mobile Home Assistant integration
(custom_components/moultrie), covering the API request executor
(`api.py`: `_request`, `refresh_tokens`, `get_devices`,
`save_device_settings`, `request_on_demand`), the data update coordinator
(`coordinator.py`: `_async_update_data`, `_async_relogin`,
`get_device_data`) and the settings write path
(`select.py`: `async_select_option`; `switch.py`: `_set_value`).

Python exceptions are modelled by the `PyExc` inductive; fallible code
returns `Except PyExc _` (or returns the post-call state next to the
`Except`, so that state mutated before a raise is kept, matching Python
semantics).  JSON dicts are modelled by typed structures whose unused
keys are collected in `extra` fields, so that round-trip properties are
meaningful.
-/

namespace Moultrie

/-- Exception classes appearing in the integration.
`clientResponseError` is aiohttp's ClientResponseError (raised by
`resp.raise_for_status()`), carrying the HTTP status.
`moultrieAuthError` / `moultrieApiError` are the typed classes of
`api.py`; `configEntryAuthFailed`, `updateFailed` and
`homeAssistantError` are the Home Assistant exception classes used by
`coordinator.py`, `select.py` and `switch.py`.  `otherError` stands for
any other exception (network failures, timeouts, ...). -/
inductive PyExc where
  | clientResponseError (status : Nat)
  | moultrieAuthError (msg : String)
  | moultrieApiError (msg : String)
  | configEntryAuthFailed (msg : String)
  | updateFailed (msg : String)
  | homeAssistantError (translationKey : String)
  | otherError (msg : String)
deriving DecidableEq

instance {ε α : Type} [DecidableEq ε] [DecidableEq α] : DecidableEq (Except ε α)
  | .ok a, .ok b =>
    if h : a = b then .isTrue (by rw [h]) else
      .isFalse (fun hh => by cases hh; exact h rfl)
  | .ok _, .error _ => .isFalse (fun hh => by cases hh)
  | .error _, .ok _ => .isFalse (fun hh => by cases hh)
  | .error a, .error b =>
    if h : a = b then .isTrue (by rw [h]) else
      .isFalse (fun hh => by cases hh; exact h rfl)

/-- The token pair held by `MoultrieApiClient` (`_access_token`,
`_refresh_token`); it is the mutable state of the client. -/
structure TokenPair where
  accessToken : String
  refreshToken : String
deriving DecidableEq

/-- Model of `resp.raise_for_status()`: aiohttp raises ClientResponseError for any
status of 400 or above. -/
def raiseForStatus (status : Nat) : Except PyExc Unit :=
  if 400 ≤ status then .error (.clientResponseError status) else .ok ()

/-- Response of the token endpoint to the refresh POST.  On success the
JSON body carries `access_token` and `refresh_token`; we assume a
well-formed body, since no claim concerns malformed refresh bodies. -/
structure RefreshResp where
  status : Nat
  accessToken : String
  refreshToken : String
deriving DecidableEq

/-- Model of `MoultrieApiClient.refresh_tokens` (api.py lines 218-237): POST
`grant_type=refresh_token`, `raise_for_status()`, then replace both
stored tokens from the response body.  Returns the client state after
the call next to the outcome: on an HTTP error the tokens are left
untouched, because the assignment happens after `raise_for_status`. -/
def refreshTokens (st : TokenPair) (r : RefreshResp) :
    TokenPair × Except PyExc TokenPair :=
  match raiseForStatus r.status with
  | .error e => (st, .error e)
  | .ok _ =>
      (⟨r.accessToken, r.refreshToken⟩, .ok ⟨r.accessToken, r.refreshToken⟩)

/-- One HTTP response for an API request: status plus parsed JSON body of
type `α`; `body = none` models an empty response body (for which
`_request` returns `{}`). -/
structure ApiResponse (α : Type) where
  status : Nat
  body : Option α
deriving DecidableEq

/-- Deterministic network environment for one `_request` call: the
response to the first attempt, the token endpoint's answer if a refresh
is triggered, and the response to the retry. -/
structure ReqEnv (α : Type) where
  method : String
  path : String
  resp1 : ApiResponse α
  refreshResp : RefreshResp
  resp2 : ApiResponse α

/-- A record of one HTTP attempt issued by `_request`: method, full URL,
and the Authorization header attached (from `_headers()`). -/
structure AttemptRec where
  method : String
  url : String
  authHeader : String
deriving DecidableEq

/-- The Authorization header built by `_headers()`. -/
def authHeaderFor (token : String) : String := "Bearer " ++ token

/-- The `API_BASE` constant from const.py. -/
def apiBase : String := "https://consumerapi-web-v2.moultriemobile.com"

/-- Outcome of one `_request` call: client state after the call, result
(`.ok none` models the `{}` returned for an empty body), the attempts
issued in order, and how many token refreshes were performed. -/
structure ReqResult (α : Type) where
  state : TokenPair
  result : Except PyExc (Option α)
  attempts : List AttemptRec
  refreshCalls : Nat

/-- Model of `MoultrieApiClient._request` (api.py lines 246-265): issue the
request with the current bearer token; on a 401 refresh the tokens and
retry the identical request once with the new token, then
`raise_for_status()`; on any other response `raise_for_status()` and
parse the body ( `{}` when empty). -/
def apiRequest {α : Type} (st : TokenPair) (env : ReqEnv α) : ReqResult α :=
  let url := apiBase ++ env.path
  let att1 : AttemptRec := ⟨env.method, url, authHeaderFor st.accessToken⟩
  if env.resp1.status = 401 then
    match refreshTokens st env.refreshResp with
    | (st1, .error e) => ⟨st1, .error e, [att1], 1⟩
    | (st1, .ok _) =>
        let att2 : AttemptRec := ⟨env.method, url, authHeaderFor st1.accessToken⟩
        match raiseForStatus env.resp2.status with
        | .error e => ⟨st1, .error e, [att1, att2], 1⟩
        | .ok _ => ⟨st1, .ok env.resp2.body, [att1, att2], 1⟩
  else
    match raiseForStatus env.resp1.status with
    | .error e => ⟨st, .error e, [att1], 0⟩
    | .ok _ => ⟨st, .ok env.resp1.body, [att1], 0⟩

/-- The body posted by `request_on_demand` (api.py lines 322-330):
`{"Meid": meid, "DidConsent": True, "OnDemandEventType": event_type}`. -/
structure OnDemandBody where
  meid : String
  didConsent : Bool
  onDemandEventType : String
deriving DecidableEq

/-- Model of `request_on_demand`: the request body it sends.  `DidConsent` is the
literal `True`; the caller supplies only the MEID and the event type. -/
def requestOnDemandBody (meid : String) (eventType : String) : OnDemandBody :=
  ⟨meid, true, eventType⟩

/-- Model of `request_on_demand` called without an explicit event type: the
Python parameter default is `"image"`. -/
def requestOnDemandBodyDefault (meid : String) : OnDemandBody :=
  requestOnDemandBody meid "image"

/-- A device dict from the `Devices` array.  `DeviceId` is accessed by
required indexing (`device["DeviceId"]`); `ModemId` is read with
`.get("ModemId", 0)`, hence `Option`.  All other keys live in `extra`. -/
structure DeviceInfo where
  deviceId : Int
  modemId : Option Int
  extra : List (String × String)
deriving DecidableEq

/-- Body of the `Devices` endpoint; `get_devices` reads
`result.get("Devices", [])`. -/
structure DevicesBody where
  devices : Option (List DeviceInfo)
deriving DecidableEq

/-- Outcome of `get_devices`. -/
structure GetDevicesResult where
  state : TokenPair
  result : Except PyExc (List DeviceInfo)
  refreshCalls : Nat

/-- Model of `MoultrieApiClient.get_devices` (api.py lines 284-287) on top of
`_request`: `result.get("Devices", [])`, with an empty `{}` body giving
`[]` as well. -/
def getDevices (st : TokenPair) (env : ReqEnv DevicesBody) : GetDevicesResult :=
  let r := apiRequest st env
  { state := r.state
    result := r.result.map (fun ob =>
      match ob with
      | none => []
      | some b => b.devices.getD [])
    refreshCalls := r.refreshCalls }

/-- Python dict insertion `m[k] = v`: replaces the value in place when
the key exists (keeping insertion order), appends otherwise. -/
def dictSet {κ β : Type} [DecidableEq κ] (m : List (κ × β)) (k : κ) (v : β) :
    List (κ × β) :=
  if m.any (fun p => decide (p.1 = k)) then
    m.map (fun p => if p.1 = k then (k, v) else p)
  else m ++ [(k, v)]

/-- Python dict lookup `m.get(k)`. -/
def dictGet {κ β : Type} [DecidableEq κ] (m : List (κ × β)) (k : κ) : Option β :=
  (m.find? (fun p => decide (p.1 = k))).map (fun p => p.2)

/-- One entry of a setting's `Options` array: `Text` is read with
`.get` (optional), `Value` with required indexing in
`async_select_option`. -/
structure SettingOption where
  text : Option String
  value : String
  extra : List (String × String)
deriving DecidableEq

/-- One setting dict: `SettingShortText` is read with `.get`
(optional), `Value` is read and written, `Options` is the option array;
all remaining keys live in `extra` and must survive a round trip. -/
structure Setting where
  shortText : Option String
  value : String
  options : List SettingOption
  extra : List (String × String)
deriving DecidableEq

/-- One group of the `GroupedSettings` array: its `Settings` list plus
all remaining keys (`GroupName`, ...) in `extra`. -/
structure SettingsGroup where
  settings : List Setting
  extra : List (String × String)
deriving DecidableEq

/-- The flat settings index built in `_async_update_data`
(coordinator.py lines 92-97): for every setting of every group, if
`SettingShortText` is truthy (present and non-empty) store the setting
under it; a later occurrence overwrites an earlier one. -/
def buildSettingsMap (groups : List SettingsGroup) : List (String × Setting) :=
  groups.foldl
    (fun m g =>
      g.settings.foldl
        (fun m s =>
          match s.shortText with
          | some short => if short = "" then m else dictSet m short s
          | none => m)
        m)
    []

/-- A latest-image dict, kept abstract as key-value pairs (no claim
reads its fields). -/
def ImageData : Type := List (String × String)

instance : DecidableEq ImageData := by
  unfold ImageData
  infer_instance

/-- The per-device entry built by `_async_update_data`
(coordinator.py lines 99-104): `info`, `latest_image`,
`settings_groups` and the flattened `settings` index. -/
structure DeviceEntry where
  info : DeviceInfo
  latestImage : Option ImageData
  settingsGroups : List SettingsGroup
  settingsMap : List (String × Setting)
deriving DecidableEq

/-- The published snapshot: the `"devices"` dict keyed by device id. -/
structure SnapshotData where
  devices : List (Int × DeviceEntry)
deriving DecidableEq

/-- Coordinator state: the known-device-id set, the published snapshot
(`self.data`, owned by the host `DataUpdateCoordinator`), the client's
token pair, the stored credentials from the config entry (read with
`.get`, hence `Option`; Python truthiness makes `""` count as absent),
and the token pair persisted in the config entry data. -/
structure CoordState where
  knownDeviceIds : Finset Int
  data : Option SnapshotData
  tokens : TokenPair
  email : Option String
  password : Option String
  entryTokens : TokenPair
deriving DecidableEq

/-- Python truthiness of an optional string: `None` and `""` are falsy. -/
def truthyStr : Option String → Bool
  | none => false
  | some s => decide (s ≠ "")

/-- Does the exception match `except MoultrieAuthError`? -/
def isMoultrieAuthErr : PyExc → Bool
  | .moultrieAuthError _ => true
  | _ => false

/-- Network environment for one reconciliation cycle: the outcome of
`get_devices`, of the full login attempted by `_async_relogin`, of the
`get_devices` retry after a re-login, and of the per-device
`get_latest_image` / `get_device_settings` fetches. -/
structure CycleEnv where
  devicesResult : Except PyExc (List DeviceInfo)
  loginResult : Except PyExc TokenPair
  devicesRetryResult : Except PyExc (List DeviceInfo)
  latestImage : Int → Except PyExc (Option ImageData)
  settings : Int → Except PyExc (List SettingsGroup)

/-- Model of `MoultrieCoordinator._async_relogin` (coordinator.py lines 43-69):
absent (or empty) stored credentials raise `ConfigEntryAuthFailed`; a
`MoultrieAuthError` from the full login is converted to
`ConfigEntryAuthFailed`; any other login failure propagates; success
replaces the client tokens and persists them in the config entry. -/
def asyncRelogin (st : CoordState) (env : CycleEnv) :
    CoordState × Except PyExc Unit :=
  if !truthyStr st.email || !truthyStr st.password then
    (st, .error (.configEntryAuthFailed "No stored credentials for re-login"))
  else
    match env.loginResult with
    | .error e =>
        if isMoultrieAuthErr e then
          (st, .error (.configEntryAuthFailed "Stored credentials are no longer valid"))
        else (st, .error e)
    | .ok tp => ({ st with tokens := tp, entryTokens := tp }, .ok ())

/-- The device-list step of `_async_update_data` (coordinator.py lines
74-78): fetch the device list; only a `MoultrieAuthError` triggers one
re-login followed by one retry of the fetch.  The middle component
records whether `_async_relogin` was invoked. -/
def fetchDevicesStep (st : CoordState) (env : CycleEnv) :
    CoordState × Bool × Except PyExc (List DeviceInfo) :=
  match env.devicesResult with
  | .ok ds => (st, false, .ok ds)
  | .error e =>
      if isMoultrieAuthErr e then
        match asyncRelogin st env with
        | (st1, .error e2) => (st1, true, .error e2)
        | (st1, .ok _) => (st1, true, env.devicesRetryResult)
      else (st, false, .error e)

/-- The per-device loop of `_async_update_data` (coordinator.py lines
83-104): for each device, in list order, fetch the latest image and the
grouped settings (any failure aborts the whole cycle), build the entry
and store it in the `"devices"` dict. -/
def buildDevicesDict (env : CycleEnv) (ds : List DeviceInfo) :
    Except PyExc (List (Int × DeviceEntry)) :=
  ds.foldlM
    (fun acc d => do
      let img ← env.latestImage d.deviceId
      let sgs ← env.settings d.deviceId
      pure (dictSet acc d.deviceId ⟨d, img, sgs, buildSettingsMap sgs⟩))
    []

/-- The `current_device_ids` set accumulated over the device list. -/
def deviceIdsOf (ds : List DeviceInfo) : Finset Int :=
  ds.foldl (fun s d => insert d.deviceId s) ∅

/-- Outcome of one reconciliation cycle: coordinator state after the
cycle, the returned data or raised exception, whether the new-device
dispatcher signal was sent, the set of device ids for which a registry
removal was performed, and whether `_async_relogin` was invoked. -/
structure CycleOutcome where
  state : CoordState
  result : Except PyExc SnapshotData
  newDeviceSignal : Bool
  removals : Finset Int
  reloginAttempted : Bool

/-- The body of `_async_update_data` before its outer `try/except`
(coordinator.py lines 74-125): device-list step, per-device fetches,
new-device signal (`if self._known_device_ids and new_devices`),
registry removals (`self._known_device_ids - current_device_ids`), then
update of the known-id set and return of the fresh data dict. -/
def runCycleCore (st : CoordState) (env : CycleEnv) : CycleOutcome :=
  match fetchDevicesStep st env with
  | (st1, att, .error e) => ⟨st1, .error e, false, ∅, att⟩
  | (st1, att, .ok ds) =>
      match buildDevicesDict env ds with
      | .error e => ⟨st1, .error e, false, ∅, att⟩
      | .ok entries =>
          let cur := deviceIdsOf ds
          ⟨{ st1 with knownDeviceIds := cur }, .ok ⟨entries⟩,
            decide (st1.knownDeviceIds ≠ ∅) && decide (cur \ st1.knownDeviceIds ≠ ∅),
            st1.knownDeviceIds \ cur, att⟩

/-- String rendering of an exception, used for the `UpdateFailed`
message (the exact text is cosmetic). -/
def excText : PyExc → String
  | .clientResponseError s => "HTTP " ++ toString s
  | .moultrieAuthError m => m
  | .moultrieApiError m => m
  | .configEntryAuthFailed m => m
  | .updateFailed m => m
  | .homeAssistantError k => k
  | .otherError m => m

/-- The outer `try/except` of `_async_update_data` (coordinator.py lines
127-132): `ConfigEntryAuthFailed` is re-raised, every other exception is
wrapped into `UpdateFailed("Error fetching Moultrie data: ...")`. -/
def wrapCycleError (e : PyExc) : PyExc :=
  match e with
  | .configEntryAuthFailed m => .configEntryAuthFailed m
  | e => .updateFailed ("Error fetching Moultrie data: " ++ excText e)

/-- Apply the outer `try/except` of `_async_update_data` to a cycle
outcome: a successful outcome passes through, a raised exception is
wrapped by `wrapCycleError`. -/
def mapOutcomeError (o : CycleOutcome) : CycleOutcome :=
  match o.result with
  | .ok _ => o
  | .error e => { o with result := .error (wrapCycleError e) }

/-- Model of `MoultrieCoordinator._async_update_data` (coordinator.py lines
71-132): the cycle body under the exception-wrapping `try/except`. -/
def asyncUpdateData (st : CoordState) (env : CycleEnv) : CycleOutcome :=
  mapOutcomeError (runCycleCore st env)

/-- The host `DataUpdateCoordinator` contract applied to an outcome: the
returned data is published into `self.data` on success, while on a
failure the previously published snapshot is kept. -/
def publishOutcome (o : CycleOutcome) : CycleOutcome :=
  match o.result with
  | .ok d => { o with state := { o.state with data := some d } }
  | .error _ => o

/-- One host-driven refresh: `_async_update_data` plus publication of
the returned snapshot by the host on success. -/
def refreshCycle (st : CoordState) (env : CycleEnv) : CycleOutcome :=
  publishOutcome (asyncUpdateData st env)

/-- Model of `MoultrieCoordinator.get_device_data` (coordinator.py lines
134-138). -/
def getDeviceData (st : CoordState) (deviceId : Int) : Option DeviceEntry :=
  match st.data with
  | none => none
  | some snap => dictGet snap.devices deviceId

/-- Body of the `SaveDeviceSettings` response:
`save_device_settings` reads `result.get("SettingsSaved", False)`. -/
structure SaveResponse where
  settingsSaved : Option Bool
  extra : List (String × String)
deriving DecidableEq

/-- Model of `result.get("SettingsSaved", False)` applied to the parsed body of
the save call (`none` is the `{}` returned by `_request` for an empty
body): missing flag or explicit `False` both give `False`. -/
def settingsSavedFlag : Option SaveResponse → Bool
  | none => false
  | some r => r.settingsSaved.getD false

/-- Model of `MoultrieApiClient.save_device_settings` (api.py lines 303-318) on
top of the `_post` outcome: a raised exception propagates, otherwise the
returned boolean is `result.get("SettingsSaved", False)`. -/
def saveDeviceSettingsResult (post : Except PyExc (Option SaveResponse)) :
    Except PyExc Bool :=
  post.map settingsSavedFlag

/-- The body posted by `save_device_settings`:
`{"CameraId": ..., "ModemId": ..., "Settings": settings_groups}`. -/
structure SaveBody where
  cameraId : Int
  modemId : Int
  settings : List SettingsGroup
deriving DecidableEq

/-- The option-resolution loop of `async_select_option` (select.py lines
150-154): `value` starts as the raw option text and is replaced by the
`Value` of the first option whose `Text` equals it. -/
def resolveOptionValue (setting : Setting) (option : String) : String :=
  match setting.options.find? (fun o => decide (o.text = some option)) with
  | some o => o.value
  | none => option

/-- The in-place mutation loop shared by `async_select_option`
(select.py lines 156-159) and `_set_value` (switch.py lines 85-88): for
every group and every setting whose `SettingShortText` equals the target
short code, set `s["Value"] = value`.  All other fields and all other
settings are left exactly as they were. -/
def updateSettingValue (groups : List SettingsGroup) (short : String)
    (v : String) : List SettingsGroup :=
  groups.map (fun g =>
    { g with settings := g.settings.map (fun s =>
        if s.shortText = some short then { s with value := v } else s) })

/-- Effect of the same mutation loop on the flattened `settings` index:
its values are aliases of the setting dicts inside `settings_groups`, so
exactly the entries whose setting has the matching `SettingShortText`
are updated in place. -/
def updateSettingsMapValues (m : List (String × Setting)) (short : String)
    (v : String) : List (String × Setting) :=
  m.map (fun p =>
    if p.2.shortText = some short then (p.1, { p.2 with value := v }) else p)

/-- Network environment for one settings write: the outcome of the
`_post` underlying `save_device_settings` (exception, or parsed body
with `none` for an empty body). -/
structure SelectEnv where
  saveResp : Except PyExc (Option SaveResponse)

/-- Outcome of `async_select_option` / `_set_value`: coordinator state
after the call (the settings dicts are mutated in place, so the
published snapshot changes), the save body sent (if any), the raised
exception (if any) and whether `async_write_ha_state` ran. -/
structure SelectOutcome where
  state : CoordState
  sentBody : Option SaveBody
  result : Except PyExc Unit
  wroteState : Bool

/-- The device entry after the in-place settings mutation. -/
def entryWithUpdatedSetting (entry : DeviceEntry) (short : String)
    (v : String) : DeviceEntry :=
  { entry with
    settingsGroups := updateSettingValue entry.settingsGroups short v
    settingsMap := updateSettingsMapValues entry.settingsMap short v }

/-- Replace the entry stored under `deviceId` in the published snapshot
(the in-place mutation seen from the coordinator's `self.data`). -/
def stateWithUpdatedEntry (st : CoordState) (deviceId : Int)
    (e : DeviceEntry) : CoordState :=
  match st.data with
  | none => st
  | some snap => { st with data := some ⟨dictSet snap.devices deviceId e⟩ }

/-- Model of `MoultrieSelect.async_select_option` (select.py lines 143-173):
return silently when the device data or the setting is missing; resolve
the option text to its value; mutate every matching setting in place;
send the full `settings_groups` structure with
`ModemId = info.get("ModemId", 0)`; wrap any exception of the save call
into `HomeAssistantError(translation_key="settings_save_failed")`; the
boolean returned by `save_device_settings` is not inspected. -/
def asyncSelectOption (st : CoordState) (deviceId : Int) (short : String)
    (option : String) (env : SelectEnv) : SelectOutcome :=
  match getDeviceData st deviceId with
  | none => ⟨st, none, .ok (), false⟩
  | some entry =>
      match dictGet entry.settingsMap short with
      | none => ⟨st, none, .ok (), false⟩
      | some setting =>
          let v := resolveOptionValue setting option
          let st1 := stateWithUpdatedEntry st deviceId
            (entryWithUpdatedSetting entry short v)
          let body : SaveBody :=
            ⟨deviceId, entry.info.modemId.getD 0,
              updateSettingValue entry.settingsGroups short v⟩
          match saveDeviceSettingsResult env.saveResp with
          | .error _ =>
              ⟨st1, some body, .error (.homeAssistantError "settings_save_failed"),
                false⟩
          | .ok _ => ⟨st1, some body, .ok (), true⟩

/-- Model of `MoultrieSettingSwitch._set_value` (switch.py lines 79-102): same
write path as `async_select_option`, except the value is passed directly
("T"/"F") and only the device data (not the individual setting) is
checked for presence. -/
def setValue (st : CoordState) (deviceId : Int) (short : String)
    (v : String) (env : SelectEnv) : SelectOutcome :=
  match getDeviceData st deviceId with
  | none => ⟨st, none, .ok (), false⟩
  | some entry =>
      let st1 := stateWithUpdatedEntry st deviceId
        (entryWithUpdatedSetting entry short v)
      let body : SaveBody :=
        ⟨deviceId, entry.info.modemId.getD 0,
          updateSettingValue entry.settingsGroups short v⟩
      match saveDeviceSettingsResult env.saveResp with
      | .error _ =>
          ⟨st1, some body, .error (.homeAssistantError "settings_save_failed"),
            false⟩
      | .ok _ => ⟨st1, some body, .ok (), true⟩

/-! Boolean classifiers over results, used to state which exception
class a failure belongs to. -/

/-- Is the result a raised `MoultrieApiError`? -/
def resultErrIsApi {β : Type} : Except PyExc β → Bool
  | .error (.moultrieApiError _) => true
  | _ => false

/-- Is the result a raised `MoultrieAuthError`? -/
def resultErrIsAuth {β : Type} : Except PyExc β → Bool
  | .error (.moultrieAuthError _) => true
  | _ => false

/-- Exception classes that model network or non-auth API failures:
aiohttp HTTP errors, `MoultrieApiError`, and generic exceptions
(timeouts, connection failures). -/
def isNetworkApiExc : PyExc → Bool
  | .clientResponseError _ => true
  | .moultrieApiError _ => true
  | .otherError _ => true
  | _ => false

/-- The raw (pre-wrapping) exception of a cycle, if any. -/
def cycleRawError (st : CoordState) (env : CycleEnv) : Option PyExc :=
  match (runCycleCore st env).result with
  | .error e => some e
  | .ok _ => none

/-! Concrete fixtures used by witnesses and counterexamples. -/

/-- An initial token pair. -/
def tp0 : TokenPair := ⟨"tokA", "tokR"⟩

/-- A successful token-endpoint response. -/
def rr200 : RefreshResp := ⟨200, "newA", "newR"⟩

/-- A token-endpoint response rejecting the refresh token. -/
def rr400 : RefreshResp := ⟨400, "junkA", "junkR"⟩

/-- A device with the given id and no modem id. -/
def mkDevice (i : Int) : DeviceInfo := ⟨i, none, []⟩

/-- Executor environment: first attempt 401, refresh succeeds, retry
returns 200 with a one-device body. -/
def envC1ok : ReqEnv DevicesBody :=
  ⟨"GET", "/api/v1/Device/Devices", ⟨401, none⟩, rr200,
    ⟨200, some ⟨some [mkDevice 12345]⟩⟩⟩

/-- Executor environment: first attempt 401, refresh succeeds, retry
401 again. -/
def envC1bad : ReqEnv DevicesBody :=
  ⟨"GET", "/api/v1/Device/Devices", ⟨401, none⟩, rr200, ⟨401, none⟩⟩

/-- Executor environment: first attempt fails with HTTP 500. -/
def env500 : ReqEnv DevicesBody :=
  ⟨"GET", "/api/v1/Device/Devices", ⟨500, none⟩, rr200, ⟨200, none⟩⟩

/-- Executor environment: first attempt 401 and the token endpoint
rejects the refresh token with HTTP 400. -/
def envBadRefresh : ReqEnv DevicesBody :=
  ⟨"GET", "/api/v1/Device/Devices", ⟨401, none⟩, rr400, ⟨200, none⟩⟩

/-- Initial coordinator state: empty known-id set, no published
snapshot, stored credentials present. -/
def st0 : CoordState :=
  ⟨∅, none, tp0, some "user@example.com", some "hunter2", tp0⟩

/-- Cycle environment in which the device list succeeds with `ds` and
every per-device fetch succeeds trivially (no image, no settings); the
relogin fields are unused. -/
def simpleEnv (ds : List DeviceInfo) : CycleEnv :=
  ⟨.ok ds, .error (.otherError "unused"), .error (.otherError "unused"),
    fun _ => .ok none, fun _ => .ok []⟩

/-- The `"devices"` dict `buildDevicesDict` produces under `simpleEnv`
for a list of devices with distinct ids. -/
def entriesOfSimple (ds : List DeviceInfo) : List (Int × DeviceEntry) :=
  ds.map (fun d => (d.deviceId, ⟨d, none, [], []⟩))

/-- Device list of reconciliation cycle 1: `{A, B}` as ids 1, 2. -/
def dsA : List DeviceInfo := [mkDevice 1, mkDevice 2]

/-- Device list of cycle 2: `{A, B, C}` as ids 1, 2, 3. -/
def dsB : List DeviceInfo := [mkDevice 1, mkDevice 2, mkDevice 3]

/-- Device list of cycle 3: `{A}` as id 1. -/
def dsC : List DeviceInfo := [mkDevice 1]

/-- Cycle 1 of the scenario: first poll with devices `{A, B}`. -/
def cycle1 : CycleOutcome := refreshCycle st0 (simpleEnv dsA)

/-- Cycle 2 of the scenario: devices `{A, B, C}`. -/
def cycle2 : CycleOutcome := refreshCycle cycle1.state (simpleEnv dsB)

/-- Cycle 3 of the scenario: devices `{A}`. -/
def cycle3 : CycleOutcome := refreshCycle cycle2.state (simpleEnv dsC)

/-- Cycle environment in which the device-list fetch fails with the
given exception; all other steps unused or succeeding. -/
def failDevicesEnv (e : PyExc) : CycleEnv :=
  ⟨.error e, .ok ⟨"reloginA", "reloginR"⟩, .ok [],
    fun _ => .ok none, fun _ => .ok []⟩

/-- Cycle environment in which the device list succeeds but the
settings fetch of every device fails with HTTP 500. -/
def failSettingsEnv (ds : List DeviceInfo) : CycleEnv :=
  ⟨.ok ds, .error (.otherError "unused"), .error (.otherError "unused"),
    fun _ => .ok none, fun _ => .error (.clientResponseError 500)⟩

/-- First cycle of the single-absence scenario: one device with id 5. -/
def cycleE1 : CycleOutcome := refreshCycle st0 (simpleEnv [mkDevice 5])

/-- Second cycle of the single-absence scenario: the device list comes
back empty. -/
def cycleE2 : CycleOutcome :=
  refreshCycle cycleE1.state (simpleEnv ([] : List DeviceInfo))

/-- Capture-mode option "Time Lapse" = "T". -/
def optTL : SettingOption := ⟨some "Time Lapse", "T", []⟩

/-- Capture-mode option "Motion Detect" = "M". -/
def optMD : SettingOption := ⟨some "Motion Detect", "M", []⟩

/-- The CTD (capture mode) setting, currently "T". -/
def settingCTD : Setting := ⟨some "CTD", "T", [optTL, optMD], []⟩

/-- A one-setting camera group holding CTD. -/
def groupCam : SettingsGroup := ⟨[settingCTD], [("GroupName", "Camera")]⟩

/-- Snapshot entry of device 7 with the CTD setting. -/
def entry7 : DeviceEntry :=
  ⟨⟨7, some 67890, []⟩, none, [groupCam], buildSettingsMap [groupCam]⟩

/-- Coordinator state with a published snapshot holding device 7. -/
def stSel : CoordState :=
  ⟨{7}, some ⟨[(7, entry7)]⟩, tp0, some "user@example.com", some "hunter2", tp0⟩

/-- Settings-write environment whose save responds with a confirmed
`SettingsSaved: true` body. -/
def selEnvOk : SelectEnv := ⟨.ok (some ⟨some true, []⟩)⟩

/-- First occurrence of the duplicated ODE short code (group 1). -/
def settingDupA : Setting := ⟨some "ODE", "F", [], [("Name", "On Demand")]⟩

/-- Second occurrence of the duplicated ODE short code (group 2). -/
def settingDupB : Setting := ⟨some "ODE", "F", [], [("Name", "On Demand 2")]⟩

/-- First group of the duplicated-short-code fixture. -/
def groupDup1 : SettingsGroup := ⟨[settingDupA], [("GroupName", "Camera")]⟩

/-- Second group of the duplicated-short-code fixture; also holds an
unrelated setting that must stay untouched. -/
def groupDup2 : SettingsGroup :=
  ⟨[settingCTD, settingDupB], [("GroupName", "Modem")]⟩

/-- Settings groups in which the ODE short code occurs in two different
groups. -/
def groupsDup : List SettingsGroup := [groupDup1, groupDup2]

/-- Snapshot entry of device 9 carrying the duplicated ODE setting. -/
def entry9 : DeviceEntry :=
  ⟨⟨9, none, []⟩, none, groupsDup, buildSettingsMap groupsDup⟩

/-- Coordinator state with a published snapshot holding device 9. -/
def stDup : CoordState := ⟨{9}, some ⟨[(9, entry9)]⟩, tp0, none, none, tp0⟩

end Moultrie

namespace Moultrie

/-- C10: for every on-demand capture request, the body sent to the
vendor API carries `DidConsent = True` regardless of caller input (the
caller controls only the MEID and the event type), and the event type
defaults to "image" when the caller does not specify one. -/
theorem c10_on_demand_consent_and_default :
    (∀ meid eventType,
      (requestOnDemandBody meid eventType).didConsent = true ∧
      (requestOnDemandBody meid eventType).meid = meid ∧
      (requestOnDemandBody meid eventType).onDemandEventType = eventType) ∧
    (∀ meid, requestOnDemandBodyDefault meid = requestOnDemandBody meid "image") :=
  ⟨fun _ _ => ⟨rfl, rfl, rfl⟩, fun _ => rfl⟩

/-- C1: if the first response to an executor request is 401 and the
token refresh succeeds, exactly one refresh is performed and the
identical request (same method and URL) is retried exactly once with the
new bearer token; the stored token pair equals the refreshed pair; on
401→refresh ok→200 the request returns the 200 payload; on
401→refresh ok→401 the request raises, with no further retry and no
second refresh. -/
theorem c1_executor_401_refresh_retry {α : Type} (st : TokenPair)
    (env : ReqEnv α) (h401 : env.resp1.status = 401)
    (hrefresh : env.refreshResp.status < 400) :
    (apiRequest st env).refreshCalls = 1 ∧
    (apiRequest st env).state =
      ⟨env.refreshResp.accessToken, env.refreshResp.refreshToken⟩ ∧
    (apiRequest st env).attempts =
      [⟨env.method, apiBase ++ env.path, authHeaderFor st.accessToken⟩,
       ⟨env.method, apiBase ++ env.path,
         authHeaderFor env.refreshResp.accessToken⟩] ∧
    (env.resp2.status = 200 → (apiRequest st env).result = .ok env.resp2.body) ∧
    (env.resp2.status = 401 →
      (apiRequest st env).result = .error (.clientResponseError 401)) := by
  have hr : refreshTokens st env.refreshResp =
      (⟨env.refreshResp.accessToken, env.refreshResp.refreshToken⟩,
        .ok ⟨env.refreshResp.accessToken, env.refreshResp.refreshToken⟩) := by
    unfold refreshTokens raiseForStatus
    rw [if_neg (by omega)]
  unfold apiRequest
  rw [if_pos h401, hr]
  refine ⟨?_, ?_, ?_, ?_, ?_⟩
  · cases raiseForStatus env.resp2.status with
    | error e => rfl
    | ok u => rfl
  · cases raiseForStatus env.resp2.status with
    | error e => rfl
    | ok u => rfl
  · cases raiseForStatus env.resp2.status with
    | error e => rfl
    | ok u => rfl
  · intro h200
    have hok : raiseForStatus env.resp2.status = .ok () := by
      unfold raiseForStatus
      rw [h200, if_neg (by omega)]
    rw [hok]
  · intro h401b
    have herr : raiseForStatus env.resp2.status =
        .error (.clientResponseError 401) := by
      unfold raiseForStatus
      rw [h401b, if_pos (by omega)]
    rw [herr]

/-- C1 witness: the theorem applied to a concrete 401→refresh ok→200
environment. -/
theorem c1_executor_401_refresh_retry_witness :
    envC1ok.resp1.status = 401 ∧ envC1ok.refreshResp.status < 400 ∧
    ((apiRequest tp0 envC1ok).refreshCalls = 1 ∧
     (apiRequest tp0 envC1ok).state =
       ⟨envC1ok.refreshResp.accessToken, envC1ok.refreshResp.refreshToken⟩ ∧
     (apiRequest tp0 envC1ok).attempts =
       [⟨envC1ok.method, apiBase ++ envC1ok.path, authHeaderFor tp0.accessToken⟩,
        ⟨envC1ok.method, apiBase ++ envC1ok.path,
          authHeaderFor envC1ok.refreshResp.accessToken⟩] ∧
     (envC1ok.resp2.status = 200 →
       (apiRequest tp0 envC1ok).result = .ok envC1ok.resp2.body) ∧
     (envC1ok.resp2.status = 401 →
       (apiRequest tp0 envC1ok).result = .error (.clientResponseError 401))) :=
  ⟨rfl, by decide,
    c1_executor_401_refresh_retry tp0 envC1ok rfl (by decide)⟩

/-- C5 counterexample: on a 500 response the executor raises aiohttp's
ClientResponseError carrying the status, not a `MoultrieApiError`; on a
second 401 after a successful refresh it raises ClientResponseError 401,
not a `MoultrieAuthError`.  The typed error classes of the claim are
never produced by `_request`. -/
theorem c5_cex_http_error_not_typed :
    (apiRequest tp0 env500).result = .error (.clientResponseError 500) ∧
    resultErrIsApi (apiRequest tp0 env500).result = false ∧
    (apiRequest tp0 envC1bad).result = .error (.clientResponseError 401) ∧
    resultErrIsAuth (apiRequest tp0 envC1bad).result = false :=
  ⟨rfl, rfl, rfl, rfl⟩

/-- C5 amended: any HTTP error status other than 401 on the first
attempt makes the request fail immediately (no refresh, no retry) with
an aiohttp ClientResponseError carrying that status code; a second 401
received after a successful refresh propagates as a ClientResponseError
with status 401 and is not retried or refreshed again.  (The typed
`MoultrieApiError` / `MoultrieAuthError` classes are not raised by the
executor.) -/
theorem c5_http_error_mapping_amended {α : Type} (st : TokenPair)
    (env : ReqEnv α) :
    (env.resp1.status ≠ 401 → 400 ≤ env.resp1.status →
      (apiRequest st env).result =
        .error (.clientResponseError env.resp1.status) ∧
      (apiRequest st env).refreshCalls = 0 ∧
      (apiRequest st env).attempts.length = 1) ∧
    (env.resp1.status = 401 → env.refreshResp.status < 400 →
      env.resp2.status = 401 →
      (apiRequest st env).result = .error (.clientResponseError 401) ∧
      (apiRequest st env).refreshCalls = 1 ∧
      (apiRequest st env).attempts.length = 2) := by
  constructor
  · intro hne hge
    have hs : raiseForStatus env.resp1.status =
        .error (.clientResponseError env.resp1.status) := by
      unfold raiseForStatus
      rw [if_pos hge]
    unfold apiRequest
    rw [if_neg hne, hs]
    exact ⟨rfl, rfl, rfl⟩
  · intro h401 hrefresh h401b
    have hr : refreshTokens st env.refreshResp =
        (⟨env.refreshResp.accessToken, env.refreshResp.refreshToken⟩,
          .ok ⟨env.refreshResp.accessToken, env.refreshResp.refreshToken⟩) := by
      unfold refreshTokens raiseForStatus
      rw [if_neg (by omega)]
    have hs : raiseForStatus env.resp2.status =
        .error (.clientResponseError 401) := by
      unfold raiseForStatus
      rw [h401b, if_pos (by omega)]
    unfold apiRequest
    rw [if_pos h401, hr, hs]
    exact ⟨rfl, rfl, rfl⟩

/-- C5 amended witness: both branches applied to concrete
environments (HTTP 500, and 401→refresh ok→401). -/
theorem c5_http_error_mapping_amended_witness :
    (env500.resp1.status ≠ 401 ∧ 400 ≤ env500.resp1.status ∧
      ((apiRequest tp0 env500).result =
          .error (.clientResponseError env500.resp1.status) ∧
        (apiRequest tp0 env500).refreshCalls = 0 ∧
        (apiRequest tp0 env500).attempts.length = 1)) ∧
    (envC1bad.resp1.status = 401 ∧ envC1bad.refreshResp.status < 400 ∧
      envC1bad.resp2.status = 401 ∧
      ((apiRequest tp0 envC1bad).result =
          .error (.clientResponseError 401) ∧
        (apiRequest tp0 envC1bad).refreshCalls = 1 ∧
        (apiRequest tp0 envC1bad).attempts.length = 2)) :=
  ⟨⟨by decide, by decide,
      (c5_http_error_mapping_amended tp0 env500).1 (by decide) (by decide)⟩,
    ⟨rfl, by decide, rfl,
      (c5_http_error_mapping_amended tp0 envC1bad).2 rfl (by decide) rfl⟩⟩

/-! Helper lemmas about the reconciliation cycle, shared by several
claims. -/

theorem fetchDevicesStep_ok (st : CoordState) (env : CycleEnv)
    (ds : List DeviceInfo) (h : env.devicesResult = .ok ds) :
    fetchDevicesStep st env = (st, false, .ok ds) := by
  unfold fetchDevicesStep
  rw [h]

theorem runCycleCore_ok (st : CoordState) (env : CycleEnv)
    (ds : List DeviceInfo) (entries : List (Int × DeviceEntry))
    (h1 : env.devicesResult = .ok ds)
    (h2 : buildDevicesDict env ds = .ok entries) :
    runCycleCore st env =
      ⟨{ st with knownDeviceIds := deviceIdsOf ds }, .ok ⟨entries⟩,
        decide (st.knownDeviceIds ≠ ∅) &&
          decide (deviceIdsOf ds \ st.knownDeviceIds ≠ ∅),
        st.knownDeviceIds \ deviceIdsOf ds, false⟩ := by
  unfold runCycleCore
  rw [fetchDevicesStep_ok st env ds h1]
  dsimp only
  rw [h2]

theorem refreshCycle_ok (st : CoordState) (env : CycleEnv)
    (ds : List DeviceInfo) (entries : List (Int × DeviceEntry))
    (h1 : env.devicesResult = .ok ds)
    (h2 : buildDevicesDict env ds = .ok entries) :
    refreshCycle st env =
      ⟨{ st with knownDeviceIds := deviceIdsOf ds, data := some ⟨entries⟩ },
        .ok ⟨entries⟩,
        decide (st.knownDeviceIds ≠ ∅) &&
          decide (deviceIdsOf ds \ st.knownDeviceIds ≠ ∅),
        st.knownDeviceIds \ deviceIdsOf ds, false⟩ := by
  unfold refreshCycle asyncUpdateData
  rw [runCycleCore_ok st env ds entries h1 h2]
  rfl

theorem asyncRelogin_preserves (st : CoordState) (env : CycleEnv) :
    ((asyncRelogin st env).1).knownDeviceIds = st.knownDeviceIds ∧
    ((asyncRelogin st env).1).data = st.data := by
  unfold asyncRelogin
  split
  · exact ⟨rfl, rfl⟩
  · split
    · split
      · exact ⟨rfl, rfl⟩
      · exact ⟨rfl, rfl⟩
    · exact ⟨rfl, rfl⟩

theorem fetchDevicesStep_preserves (st : CoordState) (env : CycleEnv) :
    ((fetchDevicesStep st env).1).knownDeviceIds = st.knownDeviceIds ∧
    ((fetchDevicesStep st env).1).data = st.data := by
  have hp := asyncRelogin_preserves st env
  unfold fetchDevicesStep
  split
  · exact ⟨rfl, rfl⟩
  · split
    · rcases h : asyncRelogin st env with ⟨st1, r⟩
      rw [h] at hp
      cases r
      · exact hp
      · exact hp
    · exact ⟨rfl, rfl⟩

theorem runCycleCore_error (st : CoordState) (env : CycleEnv) (e : PyExc)
    (h : (runCycleCore st env).result = .error e) :
    (runCycleCore st env).state.knownDeviceIds = st.knownDeviceIds ∧
    (runCycleCore st env).state.data = st.data ∧
    (runCycleCore st env).newDeviceSignal = false ∧
    (runCycleCore st env).removals = ∅ := by
  have hp := fetchDevicesStep_preserves st env
  unfold runCycleCore at h ⊢
  rcases hf : fetchDevicesStep st env with ⟨st1, att, r⟩
  rw [hf] at hp h
  cases r with
  | error e1 => exact ⟨hp.1, hp.2, rfl, rfl⟩
  | ok ds =>
      dsimp only at h ⊢
      cases hb : buildDevicesDict env ds with
      | error e1 => exact ⟨hp.1, hp.2, rfl, rfl⟩
      | ok entries =>
          rw [hb] at h
          simp at h

theorem mapOutcomeError_error (o : CycleOutcome) (e : PyExc)
    (h : o.result = .error e) :
    mapOutcomeError o = { o with result := .error (wrapCycleError e) } := by
  unfold mapOutcomeError
  rw [h]

theorem refreshCycle_error (st : CoordState) (env : CycleEnv) (e : PyExc)
    (h : (runCycleCore st env).result = .error e) :
    refreshCycle st env =
      { runCycleCore st env with result := .error (wrapCycleError e) } := by
  unfold refreshCycle asyncUpdateData
  rw [mapOutcomeError_error (runCycleCore st env) e h]
  unfold publishOutcome
  rfl

/-- C2: a successful cycle emits the new-device notification iff the
previous known-device-id set was non-empty and the current device-id set
contains ids not in it (so the first cycle never emits an add), and it
removes exactly the ids of the previous known set absent from the
current set; the known set becomes the current id set. -/
theorem c2_new_device_and_removal_rule (st : CoordState) (env : CycleEnv)
    (ds : List DeviceInfo) (entries : List (Int × DeviceEntry))
    (h1 : env.devicesResult = .ok ds)
    (h2 : buildDevicesDict env ds = .ok entries) :
    ((refreshCycle st env).newDeviceSignal = true ↔
      st.knownDeviceIds.Nonempty ∧
        ∃ i, i ∈ deviceIdsOf ds ∧ i ∉ st.knownDeviceIds) ∧
    (st.knownDeviceIds = ∅ → (refreshCycle st env).newDeviceSignal = false) ∧
    (∀ i : Int, i ∈ (refreshCycle st env).removals ↔
      i ∈ st.knownDeviceIds ∧ i ∉ deviceIdsOf ds) ∧
    (refreshCycle st env).state.knownDeviceIds = deviceIdsOf ds := by
  rw [refreshCycle_ok st env ds entries h1 h2]
  refine ⟨?_, ?_, ?_, rfl⟩
  · simp only [Bool.and_eq_true, decide_eq_true_eq, ne_eq,
      ← Finset.nonempty_iff_ne_empty]
    constructor
    · rintro ⟨hne, i, hi⟩
      exact ⟨hne, i, Finset.mem_sdiff.mp hi⟩
    · rintro ⟨hne, i, hi1, hi2⟩
      exact ⟨hne, i, Finset.mem_sdiff.mpr ⟨hi1, hi2⟩⟩
  · intro h0
    rw [h0]
    simp
  · intro i
    simp [Finset.mem_sdiff]

/-- C2 witness: the rule applied to the concrete cycle-2 input of the
scenario, plus the scenario itself: cycle 1 with devices `{1, 2}` emits
nothing, cycle 2 with `{1, 2, 3}` emits exactly the add signal, cycle 3
with `{1}` emits removals for `{2, 3}`. -/
theorem c2_new_device_and_removal_rule_witness :
    ((simpleEnv dsB).devicesResult = .ok dsB ∧
      buildDevicesDict (simpleEnv dsB) dsB = .ok (entriesOfSimple dsB)) ∧
    (((refreshCycle cycle1.state (simpleEnv dsB)).newDeviceSignal = true ↔
        cycle1.state.knownDeviceIds.Nonempty ∧
          ∃ i, i ∈ deviceIdsOf dsB ∧ i ∉ cycle1.state.knownDeviceIds) ∧
      (cycle1.state.knownDeviceIds = ∅ →
        (refreshCycle cycle1.state (simpleEnv dsB)).newDeviceSignal = false) ∧
      (∀ i : Int,
        i ∈ (refreshCycle cycle1.state (simpleEnv dsB)).removals ↔
          i ∈ cycle1.state.knownDeviceIds ∧ i ∉ deviceIdsOf dsB) ∧
      (refreshCycle cycle1.state (simpleEnv dsB)).state.knownDeviceIds =
        deviceIdsOf dsB) ∧
    (cycle1.newDeviceSignal = false ∧ cycle1.removals = ∅ ∧
      cycle2.newDeviceSignal = true ∧ cycle2.removals = ∅ ∧
      cycle3.newDeviceSignal = false ∧
      cycle3.removals = ({2, 3} : Finset Int)) :=
  ⟨⟨rfl, by decide⟩,
    c2_new_device_and_removal_rule cycle1.state (simpleEnv dsB) dsB
      (entriesOfSimple dsB) rfl (by decide),
    by decide, by decide, by decide, by decide, by decide, by decide⟩

/-- C3: when a network or API failure is the exception raised inside a
cycle, the whole cycle fails atomically: the raised error is the
recoverable `UpdateFailed` (never the fatal `ConfigEntryAuthFailed`),
the known-device-id set and the previously published snapshot are left
unchanged, and no add or removal notifications are emitted. -/
theorem c3_cycle_failure_atomic (st : CoordState) (env : CycleEnv)
    (e0 : PyExc) (h : cycleRawError st env = some e0)
    (hnet : isNetworkApiExc e0 = true) :
    (refreshCycle st env).result =
      .error (.updateFailed ("Error fetching Moultrie data: " ++ excText e0)) ∧
    (refreshCycle st env).state.knownDeviceIds = st.knownDeviceIds ∧
    (refreshCycle st env).state.data = st.data ∧
    (refreshCycle st env).newDeviceSignal = false ∧
    (refreshCycle st env).removals = ∅ := by
  have hraw : (runCycleCore st env).result = .error e0 := by
    unfold cycleRawError at h
    revert h
    cases (runCycleCore st env).result with
    | error e1 =>
        intro h
        simp only [Option.some.injEq] at h
        rw [h]
    | ok d =>
        intro h
        simp at h
  have hc := runCycleCore_error st env e0 hraw
  have hwrap : wrapCycleError e0 =
      .updateFailed ("Error fetching Moultrie data: " ++ excText e0) := by
    cases e0 <;> simp_all [isNetworkApiExc, wrapCycleError]
  rw [refreshCycle_error st env e0 hraw]
  exact ⟨by rw [hwrap], hc.1, hc.2.1, hc.2.2.1, hc.2.2.2⟩

/-- C3 witness: a concrete cycle whose per-device settings fetch fails
with HTTP 500, run from the post-cycle-1 state: the failure is wrapped
into `UpdateFailed` and the state (known ids and published snapshot) is
untouched. -/
theorem c3_cycle_failure_atomic_witness :
    cycleRawError cycle1.state (failSettingsEnv dsA) =
      some (.clientResponseError 500) ∧
    isNetworkApiExc (.clientResponseError 500) = true ∧
    ((refreshCycle cycle1.state (failSettingsEnv dsA)).result =
        .error (.updateFailed
          ("Error fetching Moultrie data: " ++
            excText (.clientResponseError 500))) ∧
      (refreshCycle cycle1.state (failSettingsEnv dsA)).state.knownDeviceIds =
        cycle1.state.knownDeviceIds ∧
      (refreshCycle cycle1.state (failSettingsEnv dsA)).state.data =
        cycle1.state.data ∧
      (refreshCycle cycle1.state (failSettingsEnv dsA)).newDeviceSignal =
        false ∧
      (refreshCycle cycle1.state (failSettingsEnv dsA)).removals = ∅) :=
  ⟨by decide, rfl,
    c3_cycle_failure_atomic cycle1.state (failSettingsEnv dsA)
      (.clientResponseError 500) (by decide) rfl⟩

/-- C8 counterexample: after a first cycle with device 5, a second
cycle whose device list is empty already removes the device — the
removal happens on the first absence, and the current list is not
non-empty.  A device is therefore not removed "only when absent from
two consecutive non-empty device lists". -/
theorem c8_cex_single_absence_removal :
    cycleE1.state.knownDeviceIds = ({5} : Finset Int) ∧
    (simpleEnv ([] : List DeviceInfo)).devicesResult =
      .ok ([] : List DeviceInfo) ∧
    cycleE2.removals = ({5} : Finset Int) :=
  ⟨by decide, rfl, by decide⟩

/-- C8 amended: a known device is removed on the first successful cycle
from whose device list it is absent (a single absence suffices, and the
current list may be empty); the first poll, starting from an empty
known set, never triggers a removal. -/
theorem c8_removal_rule_amended (st : CoordState) (env : CycleEnv)
    (ds : List DeviceInfo) (entries : List (Int × DeviceEntry))
    (h1 : env.devicesResult = .ok ds)
    (h2 : buildDevicesDict env ds = .ok entries) :
    (∀ i : Int, i ∈ (refreshCycle st env).removals ↔
      i ∈ st.knownDeviceIds ∧ i ∉ deviceIdsOf ds) ∧
    (st.knownDeviceIds = ∅ → (refreshCycle st env).removals = ∅) := by
  rw [refreshCycle_ok st env ds entries h1 h2]
  constructor
  · intro i
    simp [Finset.mem_sdiff]
  · intro h0
    rw [h0]
    simp

/-- C8 amended witness: the amended rule applied to the concrete
second cycle of the single-absence scenario. -/
theorem c8_removal_rule_amended_witness :
    ((simpleEnv ([] : List DeviceInfo)).devicesResult =
        .ok ([] : List DeviceInfo) ∧
      buildDevicesDict (simpleEnv ([] : List DeviceInfo))
          ([] : List DeviceInfo) =
        .ok (entriesOfSimple ([] : List DeviceInfo))) ∧
    ((∀ i : Int,
        i ∈ (refreshCycle cycleE1.state
            (simpleEnv ([] : List DeviceInfo))).removals ↔
          i ∈ cycleE1.state.knownDeviceIds ∧
            i ∉ deviceIdsOf ([] : List DeviceInfo)) ∧
      (cycleE1.state.knownDeviceIds = ∅ →
        (refreshCycle cycleE1.state
            (simpleEnv ([] : List DeviceInfo))).removals = ∅)) :=
  ⟨⟨rfl, rfl⟩,
    c8_removal_rule_amended cycleE1.state (simpleEnv ([] : List DeviceInfo))
      ([] : List DeviceInfo) (entriesOfSimple ([] : List DeviceInfo)) rfl rfl⟩

/-- C9 counterexample: applying a setting through the select entity
mutates the published snapshot in place — after
`async_select_option` the coordinator's stored snapshot differs from
the one published by the last cycle. -/
theorem c9_cex_select_mutates_snapshot :
    (asyncSelectOption stSel 7 "CTD" "Motion Detect" selEnvOk).state.data ≠
      stSel.data ∧
    (asyncSelectOption stSel 7 "CTD" "Motion Detect" selEnvOk).result =
      .ok () := by
  refine ⟨by decide, by decide⟩

/-- C9 amended: each successful reconciliation cycle publishes a fresh
snapshot constructed solely from the fetched responses — in particular
the published snapshot does not depend on the previously published one,
so reconciliation never mutates a past snapshot; however the
apply-setting operations mutate the currently published snapshot in
place, rewriting the matching settings' values before the save request
is sent. -/
theorem c9_snapshot_freshness_amended (st : CoordState) (env : CycleEnv)
    (ds : List DeviceInfo) (entries : List (Int × DeviceEntry))
    (h1 : env.devicesResult = .ok ds)
    (h2 : buildDevicesDict env ds = .ok entries) :
    (refreshCycle st env).state.data = some ⟨entries⟩ ∧
    (∀ d0 : Option SnapshotData,
      (refreshCycle { st with data := d0 } env).state.data =
        some ⟨entries⟩) ∧
    (∀ (deviceId : Int) (short option : String) (senv : SelectEnv)
        (entry : DeviceEntry) (setting : Setting),
      getDeviceData st deviceId = some entry →
      dictGet entry.settingsMap short = some setting →
      (asyncSelectOption st deviceId short option senv).state =
        stateWithUpdatedEntry st deviceId
          (entryWithUpdatedSetting entry short
            (resolveOptionValue setting option))) := by
  refine ⟨?_, ?_, ?_⟩
  · rw [refreshCycle_ok st env ds entries h1 h2]
  · intro d0
    rw [refreshCycle_ok { st with data := d0 } env ds entries h1 h2]
  · intro deviceId short option senv entry setting hget hset
    unfold asyncSelectOption
    rw [hget]
    dsimp only
    rw [hset]
    dsimp only
    cases saveDeviceSettingsResult senv.saveResp with
    | error e => rfl
    | ok b => rfl

/-- C9 amended witness: freshness applied to the concrete cycle-2 input
(the previously published snapshot is irrelevant to the published
result), and the in-place mutation equation applied to the concrete
select write on device 7. -/
theorem c9_snapshot_freshness_amended_witness :
    ((simpleEnv dsB).devicesResult = .ok dsB ∧
      buildDevicesDict (simpleEnv dsB) dsB = .ok (entriesOfSimple dsB)) ∧
    ((refreshCycle cycle1.state (simpleEnv dsB)).state.data =
        some ⟨entriesOfSimple dsB⟩ ∧
      (∀ d0 : Option SnapshotData,
        (refreshCycle { cycle1.state with data := d0 }
            (simpleEnv dsB)).state.data = some ⟨entriesOfSimple dsB⟩) ∧
      (∀ (deviceId : Int) (short option : String) (senv : SelectEnv)
          (entry : DeviceEntry) (setting : Setting),
        getDeviceData cycle1.state deviceId = some entry →
        dictGet entry.settingsMap short = some setting →
        (asyncSelectOption cycle1.state deviceId short option senv).state =
          stateWithUpdatedEntry cycle1.state deviceId
            (entryWithUpdatedSetting entry short
              (resolveOptionValue setting option)))) :=
  ⟨⟨rfl, by decide⟩,
    c9_snapshot_freshness_amended cycle1.state (simpleEnv dsB) dsB
      (entriesOfSimple dsB) rfl (by decide)⟩

/-- C4: the failing behaviour at the failing input.  When the device
list request gets a 401 and the token endpoint rejects the refresh
token (HTTP 400): the stored tokens are left untouched and
`refresh_tokens` raises aiohttp's ClientResponseError — not the
`MoultrieAuthError` its own test expects — so the coordinator's
`except MoultrieAuthError` never matches: even with credentials stored,
no re-login is attempted, and the cycle fails with `UpdateFailed`
instead of escalating to a full login.  (The last conjunct shows the
escalation path itself works when fed the exception class the claim
assumes.) -/
theorem c4_refresh_rejection_error_type :
    refreshTokens tp0 rr400 = (tp0, .error (.clientResponseError 400)) ∧
    isMoultrieAuthErr (.clientResponseError 400) = false ∧
    (getDevices tp0 envBadRefresh).result =
      .error (.clientResponseError 400) ∧
    (getDevices tp0 envBadRefresh).state = tp0 ∧
    truthyStr st0.email = true ∧
    truthyStr st0.password = true ∧
    (refreshCycle st0 (failDevicesEnv (.clientResponseError 400))).reloginAttempted = false ∧
    (refreshCycle st0
        (failDevicesEnv (.clientResponseError 400))).result =
      .error (.updateFailed "Error fetching Moultrie data: HTTP 400") ∧
    (refreshCycle st0
        (failDevicesEnv (.clientResponseError 400))).state.tokens = tp0 ∧
    (refreshCycle st0
        (failDevicesEnv (.moultrieAuthError "auth"))).reloginAttempted =
      true := by
  decide

/-- C6: the apply-setting write updates every occurrence of the target
short code across all groups (leaving every other setting, every group
extra field, and the list shapes untouched), and both the select and
the switch write send the full updated settings-groups structure as the
save body — never a partial update. -/
theorem c6_apply_setting_updates_all_occurrences :
    (∀ (groups : List SettingsGroup) (short v : String),
      (updateSettingValue groups short v).length = groups.length ∧
      (∀ (i : Nat) (g : SettingsGroup), groups[i]? = some g →
        ∃ g', (updateSettingValue groups short v)[i]? = some g' ∧
          g'.extra = g.extra ∧
          g'.settings.length = g.settings.length) ∧
      (∀ (i j : Nat) (g : SettingsGroup) (s : Setting),
        groups[i]? = some g → g.settings[j]? = some s →
        ∃ g', (updateSettingValue groups short v)[i]? = some g' ∧
          g'.settings[j]? =
            some (if s.shortText = some short then { s with value := v }
              else s))) ∧
    (∀ (st : CoordState) (deviceId : Int) (short option : String)
        (senv : SelectEnv) (entry : DeviceEntry) (setting : Setting),
      getDeviceData st deviceId = some entry →
      dictGet entry.settingsMap short = some setting →
      (asyncSelectOption st deviceId short option senv).sentBody =
        some ⟨deviceId, entry.info.modemId.getD 0,
          updateSettingValue entry.settingsGroups short
            (resolveOptionValue setting option)⟩) ∧
    (∀ (st : CoordState) (deviceId : Int) (short v : String)
        (senv : SelectEnv) (entry : DeviceEntry),
      getDeviceData st deviceId = some entry →
      (setValue st deviceId short v senv).sentBody =
        some ⟨deviceId, entry.info.modemId.getD 0,
          updateSettingValue entry.settingsGroups short v⟩) := by
  refine ⟨?_, ?_, ?_⟩
  · intro groups short v
    refine ⟨by simp [updateSettingValue], ?_, ?_⟩
    · intro i g hg
      refine ⟨{ g with settings := g.settings.map (fun s =>
          if s.shortText = some short then { s with value := v } else s) },
        ?_, rfl, by simp⟩
      unfold updateSettingValue
      rw [List.getElem?_map, hg]
      rfl
    · intro i j g s hg hs
      refine ⟨{ g with settings := g.settings.map (fun s =>
          if s.shortText = some short then { s with value := v } else s) },
        ?_, ?_⟩
      · unfold updateSettingValue
        rw [List.getElem?_map, hg]
        rfl
      · show (g.settings.map _)[j]? = _
        rw [List.getElem?_map, hs]
        rfl
  · intro st deviceId short option senv entry setting hget hset
    unfold asyncSelectOption
    rw [hget]
    dsimp only
    rw [hset]
    dsimp only
    cases saveDeviceSettingsResult senv.saveResp with
    | error e => rfl
    | ok b => rfl
  · intro st deviceId short v senv entry hget
    unfold setValue
    rw [hget]
    dsimp only
    cases saveDeviceSettingsResult senv.saveResp with
    | error e => rfl
    | ok b => rfl

/-- C6 witness: the ODE short code occurs in two different groups of
`groupsDup`; the theorem applied at both occurrences shows both are
updated to "T", and the select write on device 9 sends the full updated
structure. -/
theorem c6_apply_setting_updates_all_occurrences_witness :
    (groupsDup[0]? = some groupDup1 ∧
      groupDup1.settings[0]? = some settingDupA) ∧
    (groupsDup[1]? = some groupDup2 ∧
      groupDup2.settings[1]? = some settingDupB) ∧
    (∃ g', (updateSettingValue groupsDup "ODE" "T")[0]? = some g' ∧
      g'.settings[0]? =
        some (if settingDupA.shortText = some "ODE" then
          { settingDupA with value := "T" } else settingDupA)) ∧
    (∃ g', (updateSettingValue groupsDup "ODE" "T")[1]? = some g' ∧
      g'.settings[1]? =
        some (if settingDupB.shortText = some "ODE" then
          { settingDupB with value := "T" } else settingDupB)) ∧
    (getDeviceData stDup 9 = some entry9 ∧
      dictGet entry9.settingsMap "ODE" = some settingDupB) ∧
    ((asyncSelectOption stDup 9 "ODE" "T" selEnvOk).sentBody =
      some ⟨9, entry9.info.modemId.getD 0,
        updateSettingValue entry9.settingsGroups "ODE"
          (resolveOptionValue settingDupB "T")⟩) ∧
    ((updateSettingValue groupsDup "ODE" "T")[0]? =
      some ⟨[⟨some "ODE", "T", [], [("Name", "On Demand")]⟩],
        [("GroupName", "Camera")]⟩) ∧
    ((updateSettingValue groupsDup "ODE" "T")[1]? =
      some ⟨[settingCTD, ⟨some "ODE", "T", [], [("Name", "On Demand 2")]⟩],
        [("GroupName", "Modem")]⟩) :=
  ⟨⟨rfl, rfl⟩, ⟨rfl, rfl⟩,
    (c6_apply_setting_updates_all_occurrences.1 groupsDup "ODE" "T").2.2
      0 0 groupDup1 settingDupA rfl rfl,
    (c6_apply_setting_updates_all_occurrences.1 groupsDup "ODE" "T").2.2
      1 1 groupDup2 settingDupB rfl rfl,
    ⟨rfl, by decide⟩,
    c6_apply_setting_updates_all_occurrences.2.1 stDup 9 "ODE" "T"
      selEnvOk entry9 settingDupB rfl (by decide),
    by decide, by decide⟩

/-- C7 counterexample: a save response body lacking the `SettingsSaved`
flag makes `save_device_settings` return `False`, but the select write
completes successfully anyway — the unconfirmed save is not surfaced to
the immediate caller; the entity writes its state as if the save had
succeeded. -/
theorem c7_cex_save_flag_missing_swallowed :
    settingsSavedFlag none = false ∧
    saveDeviceSettingsResult (.ok none) = .ok false ∧
    (asyncSelectOption stSel 7 "CTD" "Motion Detect" ⟨.ok none⟩).result =
      .ok () ∧
    (asyncSelectOption stSel 7 "CTD" "Motion Detect"
        ⟨.ok none⟩).wroteState = true :=
  ⟨rfl, rfl, by decide, by decide⟩

/-- C7 amended: `save_device_settings` returns `True` only when the
response carries `SettingsSaved: true` (missing flag or `false` give
`False`); an exception raised during the save is surfaced to the caller
as `HomeAssistantError(settings_save_failed)`; but when the save call
returns normally the select write succeeds regardless of the returned
boolean, so an unconfirmed save is not reported to the caller. -/
theorem c7_save_flag_amended :
    (∀ r : Option SaveResponse,
      settingsSavedFlag r = true ↔
        r.bind (fun x => x.settingsSaved) = some true) ∧
    (∀ (st : CoordState) (deviceId : Int) (short option : String)
        (senv : SelectEnv) (entry : DeviceEntry) (setting : Setting)
        (e : PyExc),
      getDeviceData st deviceId = some entry →
      dictGet entry.settingsMap short = some setting →
      senv.saveResp = .error e →
      (asyncSelectOption st deviceId short option senv).result =
        .error (.homeAssistantError "settings_save_failed")) ∧
    (∀ (st : CoordState) (deviceId : Int) (short option : String)
        (senv : SelectEnv) (entry : DeviceEntry) (setting : Setting)
        (b : Bool),
      getDeviceData st deviceId = some entry →
      dictGet entry.settingsMap short = some setting →
      saveDeviceSettingsResult senv.saveResp = .ok b →
      (asyncSelectOption st deviceId short option senv).result = .ok ()) := by
  refine ⟨?_, ?_, ?_⟩
  · intro r
    cases r with
    | none => simp [settingsSavedFlag]
    | some resp =>
        cases hx : resp.settingsSaved with
        | none => simp [settingsSavedFlag, hx]
        | some b => cases b <;> simp [settingsSavedFlag, hx]
  · intro st deviceId short option senv entry setting e hget hset hsave
    have hres : saveDeviceSettingsResult senv.saveResp = .error e := by
      unfold saveDeviceSettingsResult
      rw [hsave]
      rfl
    unfold asyncSelectOption
    rw [hget]
    dsimp only
    rw [hset]
    dsimp only
    rw [hres]
  · intro st deviceId short option senv entry setting b hget hset hsave
    unfold asyncSelectOption
    rw [hget]
    dsimp only
    rw [hset]
    dsimp only
    rw [hsave]

/-- C7 amended witness: the three parts applied to concrete inputs —
the flag characterization at `SettingsSaved: false`, a save raising
HTTP 500 surfaced as HomeAssistantError, and a flag-less save response
treated as normal completion. -/
theorem c7_save_flag_amended_witness :
    (settingsSavedFlag (some ⟨some false, []⟩) = true ↔
      (some (⟨some false, []⟩ : SaveResponse)).bind
          (fun x => x.settingsSaved) = some true) ∧
    (getDeviceData stSel 7 = some entry7 ∧
      dictGet entry7.settingsMap "CTD" = some settingCTD ∧
      (⟨.error (.clientResponseError 500)⟩ : SelectEnv).saveResp =
        .error (.clientResponseError 500) ∧
      (asyncSelectOption stSel 7 "CTD" "Motion Detect"
          ⟨.error (.clientResponseError 500)⟩).result =
        .error (.homeAssistantError "settings_save_failed")) ∧
    (saveDeviceSettingsResult ((⟨.ok none⟩ : SelectEnv).saveResp) =
        .ok false ∧
      (asyncSelectOption stSel 7 "CTD" "Motion Detect"
          ⟨.ok none⟩).result = .ok ()) :=
  ⟨c7_save_flag_amended.1 (some ⟨some false, []⟩),
    ⟨rfl, by decide, rfl,
      c7_save_flag_amended.2.1 stSel 7 "CTD" "Motion Detect"
        ⟨.error (.clientResponseError 500)⟩ entry7 settingCTD
        (.clientResponseError 500) rfl (by decide) rfl⟩,
    ⟨rfl,
      c7_save_flag_amended.2.2 stSel 7 "CTD" "Motion Detect"
        ⟨.ok none⟩ entry7 settingCTD false rfl (by decide) rfl⟩⟩

end Moultrie
